import Mathlib

/-!
# Verification of the WireViz graphviz rendering core (`wv_graphviz.py`)

Shallow embedding of the rendering functions of `src/wireviz/wv_graphviz.py`:
the markup AST, the nested-table builder, pin rows, loop edges, wire stripes,
arrow parsing and the tweak-override validation.  Helper classes that live in
sibling modules (`wv_html`, `wv_colors`, `wv_dataclasses`) are modelled from
the specification where noted.
-/

/-- Modelled from the spec: `wv_colors.MultiColor` — "the wire's color
(possibly multiple sub-colors)".  A multi-color is the ordered list of its
sub-colors, each an HTML color code string. -/
structure MultiColor where
  colors : List String
deriving DecidableEq, Repr

/-- Modelled from the spec: `MultiColor.html_padded_list` (`wv_colors` is not
in `src/`).  The spec describes the wire stripe as carrying one band per
sub-color in order ("black, sub-color-1 … sub-color-N, black"), so the padded
list is taken to be the sub-color HTML codes in order. -/
def MultiColor.html_padded_list (c : MultiColor) : List String :=
  c.colors

/-- Modelled from the spec: Python truthiness of an optional `MultiColor`
(`if wire.color:` / `if pin.color`): absent or empty means colorless. -/
def colorTruthy : Option MultiColor → Bool
  | none => false
  | some m => !m.colors.isEmpty

/-!
## Markup AST (`wv_html.Table/Tr/Td`)

Modelled from the spec: "Markup AST nodes: Table (rows, attributes), Tr
(cells), Td (content: text | Table | none, attributes)."  Attribute values
(numbers in the Python kwargs) are stored as their decimal strings, the form
they take in the serialized markup; control kwargs such as `delete if empty`
are kept in the same attribute list.  A `Tr` holds the cell candidates it was
constructed from, `none` entries included, as in `gv pin row`.
-/

mutual

inductive Table where
  | mk (rows : List Tr) (attribs : List (String × String))

inductive Tr where
  | mk (cells : List (Option Td))

inductive Td where
  | mk (contents : Option TdContent) (attribs : List (String × String))

inductive TdContent where
  | text (s : String)
  | table (t : Table)

end

def Table.rows : Table → List Tr
  | .mk rows _ => rows

def Table.attribs : Table → List (String × String)
  | .mk _ attribs => attribs

def Td.contents : Td → Option TdContent
  | .mk contents _ => contents

def Td.attribs : Td → List (String × String)
  | .mk _ attribs => attribs

/-- `attribs.get(key, default)` on the attribute list. -/
def getAttrD (attribs : List (String × String)) (key d : String) : String :=
  match attribs.lookup key with
  | some v => v
  | none => d

/-!
## Data model (`wv_dataclasses`, fields used by the rendered functions)

Modelled from the spec: "Connector: pin count, ordered pins (index, id,
label, color, visibility predicate), `ports_left`/`ports_right` booleans,
style (`"simple"` has no pin table), loop list (pairs of pin indices on the
same side)"; wires/shields carry an index and an optional color.
-/

structure Pin where
  index : Nat
  id : String
  label : Option String
  color : Option MultiColor
deriving DecidableEq, Repr

structure Connector where
  designator : String
  ports_left : Bool
  ports_right : Bool
  style : String
  loops : List (Nat × Nat)
  pins : List Pin
deriving DecidableEq, Repr

structure Cable where
  designator : String
  category : String
deriving DecidableEq, Repr

inductive Component where
  | connector (c : Connector)
  | cable (c : Cable)
deriving DecidableEq, Repr

/-- Wire or shield of a cable (`WireClass` / `ShieldClass`): a shield is a
colorless wire. -/
structure Wire where
  index : Nat
  color : Option MultiColor
deriving DecidableEq, Repr

/-- `ArrowDirection` of `wv_dataclasses`. -/
inductive ArrowDirection where
  | NONE
  | FORWARD
  | BACK
  | BOTH
deriving DecidableEq, Repr

/-!
## `parse_arrow_str` (lines 408–416)

The Python function indexes `inp[0]` and `inp[-1]`; on the empty string these
raise `IndexError`, which the embedding makes explicit with `Option`.
-/

def parse_arrow_str (inp : String) : Option ArrowDirection :=
  match h : inp.data with
  | [] => none
  | c :: cs =>
    let last := (c :: cs).getLast (by simp)
    if c = '<' && last = '>' then some ArrowDirection.BOTH
    else if c = '<' then some ArrowDirection.BACK
    else if last = '>' then some ArrowDirection.FORWARD
    else some ArrowDirection.NONE

/-!
## `gv_connector_loops` (lines 236–250)
-/

def gv_connector_loops (connector : Connector) : Except String (List (String × String)) :=
  if connector.ports_left then
    Except.ok (connector.loops.map (fun loop =>
      (connector.designator ++ ":p" ++ toString loop.1 ++ "l" ++ ":w",
       connector.designator ++ ":p" ++ toString loop.2 ++ "l" ++ ":w")))
  else if connector.ports_right then
    Except.ok (connector.loops.map (fun loop =>
      (connector.designator ++ ":p" ++ toString loop.1 ++ "r" ++ ":e",
       connector.designator ++ ":p" ++ toString loop.2 ++ "r" ++ ":e")))
  else
    Except.error "No side for loops"

/-!
## `gv_pin_row` (lines 223–233)

The Python function returns `Tr(cells)` where `cells` still contains the
literal `None` entries for the sides the connector does not expose; the
embedding returns that cell-candidate list.  `str(pin.color)` is the
color-name text of `wv_colors` (not in `src/`), modelled below.
-/

/-- Modelled from the spec: the "color name text" shown for a multi-color
(`MultiColor.__str__` of `wv_colors` is not in `src/`). -/
def multiColorStr (m : MultiColor) : String :=
  String.intercalate ":" m.colors

/-- `color_minitable` (lines 465–486): small fixed-size color-swatch table,
or the empty string for an absent or empty color. -/
def color_minitable (color : Option MultiColor) : TdContent :=
  match color with
  | none => TdContent.text ""
  | some m =>
    if m.colors.length = 0 then TdContent.text ""
    else
      let cells := m.colors.map (fun subcolor =>
        some (Td.mk (some (TdContent.text ""))
          [("bgcolor", subcolor), ("height", "8"), ("width", "8"),
           ("fixedsize", "true")]))
      TdContent.table (Table.mk [Tr.mk cells]
        [("border", "1"), ("cellborder", "0"), ("cellspacing", "0"),
         ("height", "8"), ("width", toString (8 * m.colors.length + 2)),
         ("fixedsize", "true")])

def gv_pin_row (pin : Pin) (connector : Connector) : List (Option Td) :=
  let has_pincolors := connector.pins.any (fun p => colorTruthy p.color)
  [ if connector.ports_left then
      some (Td.mk (some (TdContent.text pin.id))
        [("port", "p" ++ toString (pin.index + 1) ++ "l")])
    else none,
    some (Td.mk (pin.label.map TdContent.text) [("delete_if_empty", "true")]),
    if has_pincolors then
      some (Td.mk (some (TdContent.text
          (if colorTruthy pin.color then
            multiColorStr (pin.color.getD (MultiColor.mk []))
          else "")))
        [("sides", "TBL")])
    else none,
    if has_pincolors then
      some (Td.mk (some (color_minitable pin.color)) [("sides", "TBR")])
    else none,
    if connector.ports_right then
      some (Td.mk (some (TdContent.text pin.id))
        [("port", "p" ++ toString (pin.index + 1) ++ "r")])
    else none ]

/-!
## `make_list_of_cells` and `nested_table` (lines 167–211)

A logical row (`Line`) is either a single candidate or a list of candidates;
a candidate (`Item`) is `None`, a text, a `Table`, or an already-built `Td`.
-/

inductive Item where
  | null
  | text (s : String)
  | table (t : Table)
  | cell (td : Td)

inductive Line where
  | item (i : Item)
  | list (items : List Item)

/-- `Td(inp)` on a raw candidate (`Td(None)` has empty contents). -/
def itemToTd : Item → Td
  | Item.null => Td.mk none []
  | Item.text s => Td.mk (some (TdContent.text s)) []
  | Item.table t => Td.mk (some (TdContent.table t)) []
  | Item.cell td => td

def make_list_of_cells : Line → List Td
  | Line.list items => items.map itemToTd
  | Line.item Item.null => []
  | Line.item (Item.cell td) => [td]
  | Line.item i => [itemToTd i]

/-- `"!" in contents.attribs.get("id", "")` — the inner table is explicitly
marked for forced wrapping by a `!` in its id attribute (for the single
character `!`, Python substring membership is membership among the string's
characters). -/
def force_wrap (t : Table) : Bool :=
  (getAttrD t.attribs "id" "").data.contains '!'

/-- The bordered sub-table wrapping a row's surviving cells
(`Table(Tr(cells), border=0, cellborder=1, cellpadding=3, cellspacing=0)`). -/
def wrap_cells_table (cells : List Td) : Table :=
  Table.mk [Tr.mk (cells.map some)]
    [("border", "0"), ("cellborder", "1"), ("cellpadding", "3"),
     ("cellspacing", "0")]

/-- Body of the `for lst in cell_lists` loop of `nested_table`: `none` when
the logical row is dropped, otherwise the emitted `Tr(Td(inner_table))`. -/
def nested_table_row (lst : List Td) : Option Tr :=
  if lst.length = 0 then none
  else
    let cells := lst.filter (fun item => item.contents.isSome)
    if cells.length = 0 then none
    else
      let inner_table :=
        match cells with
        | [cell] =>
          match cell.contents with
          | some (TdContent.table t) =>
            if !(force_wrap t) then t else wrap_cells_table cells
          | _ => wrap_cells_table cells
        | _ => wrap_cells_table cells
      some (Tr.mk [some (Td.mk (some (TdContent.table inner_table)) [])])

def nested_table (lines : List Line) : Table :=
  let cell_lists := lines.map make_list_of_cells
  let rows := cell_lists.filterMap nested_table_row
  let rows :=
    if rows.length = 0 then
      [Tr.mk [some (Td.mk (some (TdContent.text "")) [])]]
    else rows
  Table.mk rows [("border", "0"), ("cellspacing", "0"), ("cellpadding", "0")]

/-!
## `gv_wire_cell` (lines 302–330)
-/

def gv_wire_cell (wire : Wire) (colspan : Nat) : Td :=
  let color_list :=
    if colorTruthy wire.color then
      ["#000000"] ++ (wire.color.getD (MultiColor.mk [])).html_padded_list
        ++ ["#000000"]
    else
      ["#000000"]
  let wire_inner_rows := color_list.reverse.map (fun bgcolor =>
    Tr.mk [some (Td.mk (some (TdContent.text ""))
      [("bgcolor", if bgcolor != "" then bgcolor else "#000000"),
       ("border", "0"), ("cellpadding", "0"), ("colspan", toString colspan),
       ("height", "2")])])
  let wire_inner_table :=
    Table.mk wire_inner_rows
      [("border", "0"), ("cellborder", "0"), ("cellspacing", "0")]
  Td.mk (some (TdContent.table wire_inner_table))
    [("border", "0"), ("cellspacing", "0"), ("cellpadding", "0"),
     ("colspan", toString colspan), ("height", toString (2 * color_list.length)),
     ("port", "w" ++ toString (wire.index + 1))]

/-- The band background colors of a wire-stripe cell, top row first. -/
def stripe_bands (td : Td) : List String :=
  match td.contents with
  | some (TdContent.table t) =>
    t.rows.map (fun r =>
      match r with
      | Tr.mk [some cell] => getAttrD cell.attribs "bgcolor" ""
      | _ => "")
  | _ => []

/-- The `port` attribute of a cell. -/
def port_attr (td : Td) : Option String :=
  td.attribs.lookup "port"

/-!
## `gv_node_component` (lines 27–31): state effect on the component

The only statement of `gv_node_component` that writes to its argument is the
connector default-side rule (`component.ports_left = True`); every other
statement reads the component and builds markup.  This function is the
component's state after the call.
-/

def gv_node_component_component_after (component : Component) : Component :=
  match component with
  | Component.connector c =>
    if !(c.ports_left || c.ports_right) then
      Component.connector { c with ports_left := true }
    else component
  | Component.cable _ => component

/-!
## `apply_dot_tweaks` override validation (lines 559–619)

`tweak.override` is a dynamically-typed Python value, modelled by `PyVal`.
`typecheck` raises on the first type mismatch, in iteration order, before
the body-editing loop runs; exception messages are condensed to their fixed
prefix.  The attribute-editing loop (lines 578–619), which runs only after
every entry has been validated, is abstracted as the `edit` parameter: the
claims about this function concern only the validation phase that precedes
any edit.  An error carries the body as it stood when the exception was
raised.
-/

inductive PyVal where
  | pynone
  | pybool (b : Bool)
  | pyint (n : Int)
  | pystr (s : String)
  | pylist (xs : List PyVal)
  | pydict (entries : List (PyVal × PyVal))

def PyVal.isStr : PyVal → Bool
  | PyVal.pystr _ => true
  | _ => false

def PyVal.isNone : PyVal → Bool
  | PyVal.pynone => true
  | _ => false

/-- `typecheck(... key, str)` / `typecheck(... value, (str, NoneType))` on the
entries of one attribute-edit mapping. -/
def validate_attr_entries : List (PyVal × PyVal) → Option String
  | [] => none
  | (a, v) :: rest =>
    if !a.isStr then
      some "Unexpected value type of tweak.override attribute key"
    else if !(v.isStr || v.isNone) then
      some "Unexpected value type of tweak.override attribute value"
    else validate_attr_entries rest

/-- The validation loop over `tweak.override.items()`. -/
def validate_override_entries : List (PyVal × PyVal) → Option String
  | [] => none
  | (k, d) :: rest =>
    if !k.isStr then
      some "Unexpected value type of tweak.override key"
    else
      match d with
      | PyVal.pydict inner =>
        match validate_attr_entries inner with
        | some msg => some msg
        | none => validate_override_entries rest
      | _ => some "Unexpected value type of tweak.override value"

def apply_dot_tweaks_override
    (edit : List String → List (PyVal × PyVal) → List String)
    (body : List String) (override : Option PyVal) :
    Except (String × List String) (List String) :=
  match override with
  | none => Except.ok body
  | some (PyVal.pydict entries) =>
    match validate_override_entries entries with
    | some msg => Except.error (msg, body)
    | none => Except.ok (edit body entries)
  | some _ => Except.error ("Unexpected value type of tweak.override", body)

/-- One override entry is malformed: non-text keyword, non-mapping
attribute-edit value, non-text attribute name, or an attribute value that is
neither text nor null. -/
def override_entry_malformed (e : PyVal × PyVal) : Bool :=
  !e.1.isStr ||
    (match e.2 with
     | PyVal.pydict inner =>
       inner.any (fun a => !a.1.isStr || !(a.2.isStr || a.2.isNone))
     | _ => true)

def override_malformed (entries : List (PyVal × PyVal)) : Bool :=
  entries.any override_entry_malformed

/-!
## Characterization predicate and concrete fixtures
-/

/-- The condition under which `nested_table` uses a row's single surviving
cell's inner table directly: exactly one cell, its content a `Table` not
marked for forced wrapping. -/
def unwrap_cond (cells : List Td) : Bool :=
  match cells with
  | [cell] =>
    match cell.contents with
    | some (TdContent.table t) => !(force_wrap t)
    | _ => false
  | _ => false

/-- Left-sided connector with one loop, as in the spec example. -/
def conn0 : Connector :=
  { designator := "C", ports_left := true, ports_right := false,
    style := "", loops := [(1, 2)], pins := [] }

/-- Connector with both sides configured and one loop. -/
def conn1 : Connector :=
  { designator := "X", ports_left := true, ports_right := true,
    style := "", loops := [(3, 4)], pins := [] }

/-- Connector with neither side configured. -/
def connBare : Connector :=
  { designator := "J1", ports_left := false, ports_right := false,
    style := "default", loops := [], pins := [] }

/-- Connector with both sides configured and no loops, for pin rows. -/
def conn2 : Connector :=
  { designator := "J2", ports_left := true, ports_right := true,
    style := "default", loops := [],
    pins := [{ index := 0, id := "1", label := none, color := none },
             { index := 1, id := "2", label := none, color := none },
             { index := 2, id := "3", label := none, color := none }] }

/-- A wire with the two sub-colors `[A, B]` (red, green). -/
def wireRG : Wire :=
  { index := 0, color := some (MultiColor.mk ["#FF0000", "#00FF00"]) }

/-- A colorless wire (shield). -/
def wireShield : Wire := { index := 1, color := none }

/-- A small one-cell table with no attributes (so not force-wrapped). -/
def innerT0 : Table :=
  Table.mk [Tr.mk [some (Td.mk (some (TdContent.text "x")) [])]] []

/-- A logical-row list whose single row is exactly the table `innerT0`. -/
def lines5 : List Line := [Line.item (Item.table innerT0)]

/-- A logical-row list whose single row is a lone null candidate. -/
def lines6 : List Line := [Line.item Item.null]

/-!
## Theorems
-/

/-- Claim C8: for every non-empty marker string, `parse_arrow_str` returns
BOTH if the first character is `<` and the last is `>`, BACK if only the
first is `<`, FORWARD if only the last is `>`, and NONE otherwise; in
particular `"<>"` maps to both, `"<-"` to back, `"->"` to forward and `"-"`
to none. -/
theorem parse_arrow_str_spec :
    parse_arrow_str "<>" = some ArrowDirection.BOTH ∧
    parse_arrow_str "<-" = some ArrowDirection.BACK ∧
    parse_arrow_str "->" = some ArrowDirection.FORWARD ∧
    parse_arrow_str "-" = some ArrowDirection.NONE ∧
    ∀ (c : Char) (cs : List Char),
      parse_arrow_str (String.mk (c :: cs)) =
        some (if c = '<' ∧ (c :: cs).getLast (List.cons_ne_nil c cs) = '>' then
            ArrowDirection.BOTH
          else if c = '<' then ArrowDirection.BACK
          else if (c :: cs).getLast (List.cons_ne_nil c cs) = '>' then
            ArrowDirection.FORWARD
          else ArrowDirection.NONE) := by
  refine ⟨by decide, by decide, by decide, by decide, ?_⟩
  intro c cs
  by_cases h1 : c = '<' <;>
    by_cases h2 : (c :: cs).getLast (List.cons_ne_nil c cs) = '>' <;>
    simp [parse_arrow_str, h1, h2, apply_ite]

/-- Claim C9: `parse_arrow_str` is not total: on the empty string the Python
code raises (indexing the first and last character), modelled as `none`; on
every non-empty string it returns a well-defined direction. -/
theorem parse_arrow_str_partiality :
    parse_arrow_str "" = none ∧
    ∀ s : String, s ≠ "" → (parse_arrow_str s).isSome = true := by
  constructor
  · rfl
  · intro s hs
    obtain ⟨data⟩ := s
    match data with
    | [] => exact absurd (by rfl) hs
    | c :: cs =>
      by_cases h1 : c = '<' <;>
        by_cases h2 : (c :: cs).getLast (List.cons_ne_nil c cs) = '>' <;>
        simp [parse_arrow_str, h1, h2, apply_ite]

theorem parse_arrow_str_partiality_witness :
    parse_arrow_str "" = none ∧ (parse_arrow_str "-").isSome = true :=
  ⟨parse_arrow_str_partiality.1, parse_arrow_str_partiality.2 "-" (by decide)⟩

/-- Claim C3: `gv_connector_loops` raises an error if and only if the
connector has neither `ports_left` nor `ports_right` configured; otherwise,
on a left-sided connector, each loop pair `(a, b)` yields exactly one edge
between `<designator>:p<a>l:w` and `<designator>:p<b>l:w`. -/
theorem gv_connector_loops_spec (c : Connector) :
    ((∃ e, gv_connector_loops c = Except.error e) ↔
      (c.ports_left = false ∧ c.ports_right = false)) ∧
    (c.ports_left = true →
      gv_connector_loops c = Except.ok (c.loops.map (fun loop =>
        (c.designator ++ ":p" ++ toString loop.1 ++ "l" ++ ":w",
         c.designator ++ ":p" ++ toString loop.2 ++ "l" ++ ":w")))) := by
  unfold gv_connector_loops
  constructor
  · cases hl : c.ports_left <;> cases hr : c.ports_right <;> simp [hl, hr]

  · intro h
    simp [h]

theorem gv_connector_loops_spec_witness :
    gv_connector_loops conn0 = Except.ok [("C:p1l:w", "C:p2l:w")] := by
  have h := (gv_connector_loops_spec conn0).2 rfl
  exact h.trans rfl

/-- Claim C10: when both `ports_left` and `ports_right` are configured,
`gv_connector_loops` resolves the ambiguous common side in favor of the left
side: every loop edge uses side token `l` and compass `w`. -/
theorem gv_connector_loops_left_priority (c : Connector)
    (hl : c.ports_left = true) (_hr : c.ports_right = true) :
    gv_connector_loops c = Except.ok (c.loops.map (fun loop =>
      (c.designator ++ ":p" ++ toString loop.1 ++ "l" ++ ":w",
       c.designator ++ ":p" ++ toString loop.2 ++ "l" ++ ":w"))) := by
  unfold gv_connector_loops
  simp [hl]

theorem gv_connector_loops_left_priority_witness :
    gv_connector_loops conn1 = Except.ok [("X:p3l:w", "X:p4l:w")] := by
  have h := gv_connector_loops_left_priority conn1 rfl rfl
  exact h.trans rfl

/-- Claim C2, counterexample: `gv_node_component` does mutate its argument —
a connector with neither side configured has `ports_left` set to `true` by
the call, so the component is not equal to its value before the call. -/
theorem gv_node_component_purity_counterexample :
    gv_node_component_component_after (Component.connector connBare) ≠
      Component.connector connBare := by
  decide

/-- Claim C2, amended: `gv_node_component` leaves every field of the
component unchanged, except that a `Connector` with neither `ports_left` nor
`ports_right` configured gets `ports_left` set to `true` (its other fields
unchanged). -/
theorem gv_node_component_frame (c : Component) :
    (∀ cab, c = Component.cable cab → gv_node_component_component_after c = c) ∧
    (∀ conn, c = Component.connector conn →
      (conn.ports_left || conn.ports_right) = true →
      gv_node_component_component_after c = c) ∧
    (∀ conn, c = Component.connector conn →
      conn.ports_left = false → conn.ports_right = false →
      gv_node_component_component_after c =
        Component.connector { conn with ports_left := true }) := by
  refine ⟨?_, ?_, ?_⟩
  · intro cab hc
    subst hc
    rfl
  · intro conn hc hp
    subst hc
    simp [gv_node_component_component_after, hp]
  · intro conn hc h1 h2
    subst hc
    simp [gv_node_component_component_after, h1, h2]

theorem gv_node_component_frame_witness :
    gv_node_component_component_after (Component.connector connBare) =
      Component.connector { connBare with ports_left := true } :=
  (gv_node_component_frame (Component.connector connBare)).2.2 connBare rfl rfl rfl

/-- Claim C1, counterexample: a wire with sub-colors `[A, B]` (red, green)
yields the stripe `black, B, A, black` top to bottom — `gv_wire_cell`
iterates `color_list[::-1]` — not `black, A, B, black` as claimed. -/
theorem gv_wire_cell_band_order_counterexample :
    stripe_bands (gv_wire_cell wireRG 3) =
      ["#000000", "#00FF00", "#FF0000", "#000000"] ∧
    ¬ stripe_bands (gv_wire_cell wireRG 3) =
      ["#000000", "#FF0000", "#00FF00", "#000000"] := by
  constructor
  · rfl
  · decide

/-- The band list of `gv_wire_cell` is the reversed color list, each empty
entry replaced by black. -/
theorem stripe_bands_gv_wire_cell (w : Wire) (colspan : Nat) :
    stripe_bands (gv_wire_cell w colspan) =
      (if colorTruthy w.color then
        ["#000000"] ++ (w.color.getD (MultiColor.mk [])).html_padded_list
          ++ ["#000000"]
      else ["#000000"]).reverse.map
        (fun b => if b = "" then "#000000" else b) := by
  unfold gv_wire_cell stripe_bands
  simp only [Td.contents, Table.rows, List.map_map]
  apply List.map_congr_left
  intro b _
  by_cases hb : b = "" <;> simp [hb, getAttrD, List.lookup]

/-- Claim C1, amended: for a wire with sub-colors `[c1 … cN]` the stripe
bands, top to bottom, are the reverse of `black, c1 … cN, black` (empty
sub-color entries rendered black); a colorless wire yields a single black
band; the stripe's outer cell is tagged with the wire port token
`w<index+1>`. -/
theorem gv_wire_cell_bands (w : Wire) (colspan : Nat) :
    (∀ m, w.color = some m → m.colors ≠ [] →
      stripe_bands (gv_wire_cell w colspan) =
        (["#000000"] ++ m.colors ++ ["#000000"]).reverse.map
          (fun b => if b = "" then "#000000" else b)) ∧
    (colorTruthy w.color = false →
      stripe_bands (gv_wire_cell w colspan) = ["#000000"]) ∧
    port_attr (gv_wire_cell w colspan) = some ("w" ++ toString (w.index + 1)) := by
  refine ⟨?_, ?_, ?_⟩
  · intro m hm hne
    rw [stripe_bands_gv_wire_cell]
    have ht : colorTruthy w.color = true := by
      simp [colorTruthy, hm, hne]
    rw [ht, hm]
    simp [MultiColor.html_padded_list]
  · intro h
    rw [stripe_bands_gv_wire_cell, h]
    rfl
  · rfl

theorem gv_wire_cell_bands_witness :
    stripe_bands (gv_wire_cell wireRG 3) =
      (["#000000"] ++ ["#FF0000", "#00FF00"] ++ ["#000000"]).reverse.map
        (fun b => if b = "" then "#000000" else b) :=
  (gv_wire_cell_bands wireRG 3).1 (MultiColor.mk ["#FF0000", "#00FF00"]) rfl
    (by decide)

/-- Claim C4: a pin row has exactly five cell candidates; its first (left
pin-id) cell carries port `p<index+1>l` exactly when the connector exposes
left ports, else it is absent, and its last (right pin-id) cell carries port
`p<index+1>r` exactly when the connector exposes right ports, else it is
absent. -/
theorem gv_pin_row_ports (pin : Pin) (connector : Connector) :
    (gv_pin_row pin connector).length = 5 ∧
    (gv_pin_row pin connector).head? =
      some (if connector.ports_left then
        some (Td.mk (some (TdContent.text pin.id))
          [("port", "p" ++ toString (pin.index + 1) ++ "l")])
      else none) ∧
    (gv_pin_row pin connector).getLast? =
      some (if connector.ports_right then
        some (Td.mk (some (TdContent.text pin.id))
          [("port", "p" ++ toString (pin.index + 1) ++ "r")])
      else none) :=
  ⟨rfl, rfl, rfl⟩

/-- A logical row all of whose cell candidates are null or dropped produces
no output row. -/
theorem nested_table_row_none (lst : List Td)
    (h : lst.filter (fun item => item.contents.isSome) = []) :
    nested_table_row lst = none := by
  unfold nested_table_row
  by_cases h0 : lst.length = 0
  · simp [h0]
  · simp [h0, h]

/-- Claim C6: when every logical row collapses to empty (all candidates null
or dropped), `nested_table` returns a table with exactly one row holding one
empty cell, never a table with zero rows. -/
theorem nested_table_all_empty (lines : List Line)
    (h : ∀ line ∈ lines,
      (make_list_of_cells line).filter (fun item => item.contents.isSome) = []) :
    nested_table lines =
      Table.mk [Tr.mk [some (Td.mk (some (TdContent.text "")) [])]]
        [("border", "0"), ("cellspacing", "0"), ("cellpadding", "0")] := by
  unfold nested_table
  have hrows : (lines.map make_list_of_cells).filterMap nested_table_row = [] := by
    rw [List.filterMap_eq_nil_iff]
    intro lst hlst
    obtain ⟨line, hline, rfl⟩ := List.mem_map.mp hlst
    exact nested_table_row_none _ (h line hline)
  simp [hrows]

theorem nested_table_all_empty_witness :
    nested_table lines6 =
      Table.mk [Tr.mk [some (Td.mk (some (TdContent.text "")) [])]]
        [("border", "0"), ("cellspacing", "0"), ("cellpadding", "0")] := by
  apply nested_table_all_empty
  intro line hline
  simp only [lines6, List.mem_singleton] at hline
  subst hline
  rfl

/-- A logical row whose single surviving cell holds an unmarked inner table
produces that inner table directly as the row content. -/
theorem nested_table_row_unwrap_eq (lst : List Td) (c : Td) (t : Table)
    (hc : lst.filter (fun item => item.contents.isSome) = [c])
    (ht : c.contents = some (TdContent.table t))
    (hf : force_wrap t = false) :
    nested_table_row lst =
      some (Tr.mk [some (Td.mk (some (TdContent.table t)) [])]) := by
  unfold nested_table_row
  have h0 : ¬ lst.length = 0 := by
    intro h0
    rw [List.length_eq_zero] at h0
    subst h0
    simp at hc
  rw [if_neg h0]
  simp [hc, ht, hf]

/-- A logical row with surviving cells that do not satisfy the single
unmarked-table condition produces the bordered wrapping sub-table. -/
theorem nested_table_row_wrap_eq (lst : List Td)
    (hne : lst.filter (fun item => item.contents.isSome) ≠ [])
    (hcond : unwrap_cond (lst.filter (fun item => item.contents.isSome)) = false) :
    nested_table_row lst =
      some (Tr.mk [some (Td.mk (some (TdContent.table
        (wrap_cells_table (lst.filter (fun item => item.contents.isSome))))) [])]) := by
  unfold nested_table_row
  have h0 : ¬ lst.length = 0 := by
    intro h0
    rw [List.length_eq_zero] at h0
    subst h0
    exact hne rfl
  rw [if_neg h0]
  cases hcells : lst.filter (fun item => item.contents.isSome) with
  | nil => exact absurd hcells hne
  | cons c rest =>
    rw [hcells] at hcond
    simp only [hcells]
    cases rest with
    | nil =>
      cases hct : c.contents with
      | none => simp [hct]
      | some tc =>
        cases tc with
        | text s => simp [hct]
        | table t =>
          unfold unwrap_cond at hcond
          simp [hct] at hcond
          simp [hct, hcond]
    | cons c2 rest2 => simp

/-- A surviving logical row's emitted `Tr` is among the rows of the final
table built by `nested_table`. -/
theorem nested_table_mem_row (lines : List Line) (line : Line) (r : Tr)
    (hmem : line ∈ lines)
    (hr : nested_table_row (make_list_of_cells line) = some r) :
    r ∈ (nested_table lines).rows := by
  unfold nested_table
  have hmem2 : r ∈ (lines.map make_list_of_cells).filterMap nested_table_row :=
    List.mem_filterMap.mpr ⟨make_list_of_cells line, List.mem_map_of_mem _ hmem, hr⟩
  have hne : ¬ ((lines.map make_list_of_cells).filterMap nested_table_row).length = 0 := by
    intro hlen
    rw [List.length_eq_zero] at hlen
    rw [hlen] at hmem2
    exact absurd hmem2 (List.not_mem_nil r)
  simp only [Table.rows]
  rw [if_neg hne]
  exact hmem2

/-- Claim C5: when a logical row of the input reduces to exactly one
surviving cell whose content is a `Table` not marked for forced wrapping,
`nested_table` uses that inner table directly as the row's content (no extra
nesting level); otherwise the surviving cells are wrapped in a bordered
sub-table. -/
theorem nested_table_unwrap_spec (lines : List Line) (line : Line)
    (hmem : line ∈ lines) :
    (∀ c t,
      (make_list_of_cells line).filter (fun item => item.contents.isSome) = [c] →
      c.contents = some (TdContent.table t) → force_wrap t = false →
      Tr.mk [some (Td.mk (some (TdContent.table t)) [])]
        ∈ (nested_table lines).rows) ∧
    (∀ cells,
      (make_list_of_cells line).filter (fun item => item.contents.isSome) = cells →
      cells ≠ [] → unwrap_cond cells = false →
      Tr.mk [some (Td.mk (some (TdContent.table (wrap_cells_table cells))) [])]
        ∈ (nested_table lines).rows) := by
  constructor
  · intro c t hc ht hf
    exact nested_table_mem_row lines line _ hmem
      (nested_table_row_unwrap_eq _ c t hc ht hf)
  · intro cells hcells hne hcond
    subst hcells
    exact nested_table_mem_row lines line _ hmem
      (nested_table_row_wrap_eq _ hne hcond)

theorem nested_table_unwrap_spec_witness :
    Tr.mk [some (Td.mk (some (TdContent.table innerT0)) [])]
      ∈ (nested_table lines5).rows := by
  refine (nested_table_unwrap_spec lines5 (Line.item (Item.table innerT0)) ?_).1
    (Td.mk (some (TdContent.table innerT0)) []) innerT0 rfl rfl (by decide)
  simp [lines5]

/-- An attribute-edit mapping with a non-text attribute name or an attribute
value that is neither text nor null fails its validation loop with some
error. -/
theorem validate_attr_entries_some (inner : List (PyVal × PyVal)) :
    inner.any (fun a => !a.1.isStr || !(a.2.isStr || a.2.isNone)) = true →
    ∃ msg, validate_attr_entries inner = some msg := by
  induction inner with
  | nil =>
    intro h
    simp at h
  | cons e rest ih =>
    intro h
    obtain ⟨a, v⟩ := e
    rw [List.any_cons, Bool.or_eq_true] at h
    unfold validate_attr_entries
    cases h1 : a.isStr with
    | false =>
      exact ⟨"Unexpected value type of tweak.override attribute key", by simp [h1]⟩
    | true =>
      cases h2 : (v.isStr || v.isNone) with
      | false =>
        exact ⟨"Unexpected value type of tweak.override attribute value",
          by simp [h1, h2]⟩
      | true =>
        have hrest : rest.any (fun a => !a.1.isStr || !(a.2.isStr || a.2.isNone)) = true := by
          rcases h with hl | hr
          · exfalso
            simp only [h1, Bool.not_true, Bool.false_or, Bool.not_eq_true'] at hl
            rw [h2] at hl
            exact absurd hl (by simp)
          · exact hr
        obtain ⟨msg, hm⟩ := ih hrest
        exact ⟨msg, by simp [h1, h2, hm]⟩

/-- A malformed override mapping fails its validation loop with some
error. -/
theorem validate_override_entries_some (entries : List (PyVal × PyVal)) :
    override_malformed entries = true →
    ∃ msg, validate_override_entries entries = some msg := by
  induction entries with
  | nil =>
    intro h
    simp [override_malformed] at h
  | cons e rest ih =>
    intro h
    obtain ⟨k, d⟩ := e
    unfold override_malformed at h
    rw [List.any_cons, Bool.or_eq_true] at h
    unfold validate_override_entries
    cases h1 : k.isStr with
    | false =>
      exact ⟨"Unexpected value type of tweak.override key", by simp [h1]⟩
    | true =>
      cases d with
      | pydict inner =>
        cases hv : validate_attr_entries inner with
        | some m => exact ⟨m, by simp [h1, hv]⟩
        | none =>
          rcases h with hl | hr
          · exfalso
            simp only [override_entry_malformed, h1, Bool.not_true, Bool.false_or] at hl
            obtain ⟨msg, hm⟩ := validate_attr_entries_some inner hl
            rw [hm] at hv
            exact Option.noConfusion hv
          · obtain ⟨msg, hm⟩ := ih (by unfold override_malformed; exact hr)
            exact ⟨msg, by simp [h1, hv, hm]⟩
      | pynone =>
        exact ⟨"Unexpected value type of tweak.override value", by simp [h1]⟩
      | pybool b =>
        exact ⟨"Unexpected value type of tweak.override value", by simp [h1]⟩
      | pyint n =>
        exact ⟨"Unexpected value type of tweak.override value", by simp [h1]⟩
      | pystr s =>
        exact ⟨"Unexpected value type of tweak.override value", by simp [h1]⟩
      | pylist xs =>
        exact ⟨"Unexpected value type of tweak.override value", by simp [h1]⟩

/-- Claim C7: for every tweak whose override mapping is malformed (non-text
keyword, non-mapping attribute-edit value, non-text attribute name, or an
attribute value that is neither text nor null), `apply_dot_tweaks` raises an
error before any line of the serialized output is modified — the error
carries the line sequence unchanged, for every possible editing phase. -/
theorem apply_dot_tweaks_override_validates_first
    (edit : List String → List (PyVal × PyVal) → List String)
    (body : List String) (entries : List (PyVal × PyVal))
    (h : override_malformed entries = true) :
    ∃ msg, apply_dot_tweaks_override edit body (some (PyVal.pydict entries)) =
      Except.error (msg, body) := by
  obtain ⟨msg, hm⟩ := validate_override_entries_some entries h
  exact ⟨msg, by simp [apply_dot_tweaks_override, hm]⟩

theorem apply_dot_tweaks_override_validates_first_witness :
    ∃ msg, apply_dot_tweaks_override (fun b _ => b) ["node [color=red]"]
      (some (PyVal.pydict [(PyVal.pyint 3, PyVal.pydict [])])) =
      Except.error (msg, ["node [color=red]"]) :=
  apply_dot_tweaks_override_validates_first (fun b _ => b) ["node [color=red]"]
    [(PyVal.pyint 3, PyVal.pydict [])] (by decide)
